import Mathlib

/-!
Verification development for the telemetry reporter of
`packages/util/telemetry/generic/index.ts` (vscode-sqltools).

The reporter is a process-wide singleton wrapping the Sentry SDK. We embed
it as a pure state machine: the mutable statics (`Telemetry.enabled`,
`Telemetry.extraInfo`), the `lastIndex` of the module-level
`IGNORE_ERRORS_REGEX` (created with the JavaScript `g` flag, hence stateful
across `.test()` calls), and the Sentry client's own `enabled` option form
the state; every call to a collaborator (the `debug`-style logger and the
Sentry SDK) is recorded as an explicit `Effect`.

Modelling notes, all observationally faithful to the TypeScript source:
* `Telemetry.enabled` is declared `public static enabled: Boolean;` and so
  starts out `undefined`; every read of it in the module is a truthiness
  test (`!Telemetry.enabled` or `if (Telemetry.enabled)`), and the only
  assignments write `true`/`false`, so it is modelled as a `Bool` that
  starts `false`.
* `process.env.PRODUCT || 'ext'` is an ambient constant; operations take
  `product` as an explicit parameter (the default is the string "ext").
* `+new Date()` (the event timestamp) and `timer.elapsed()` are ambient
  inputs, passed as explicit parameters.
* `ITelemetryArgs` and its `extraInfo` shape live outside this file's
  source; the field names `uniqId`/`sessId` are taken from their uses in
  `createClient` (`Telemetry.extraInfo.uniqId`, `.sessId`), and
  `updateOpts` reads `opts.enableTelemetry` and `opts.extraInfo`.
* JavaScript `toLowerCase`/`substr` are modelled character-wise (all
  strings involved in the claims are ASCII).
-/

namespace Telemetry

/-- A JavaScript primitive value appearing in a property bag. -/
inductive JSVal where
  | str : String → JSVal
  | num : Int → JSVal
deriving DecidableEq, Repr

/-- A JavaScript object literal used as a `{ [key: string]: any }` bag,
as an association list in property-insertion order. -/
abbrev Props := List (String × JSVal)

/-- Spread-merge `{ ...a, ...b }`: keys of `a` in order (values overridden
by `b` where present), then keys of `b` not in `a`. -/
def propsMerge (a b : Props) : Props :=
  (a.map (fun kv =>
    match b.find? (fun kv2 => kv2.1 == kv.1) with
    | some kv2 => (kv.1, kv2.2)
    | none => kv))
  ++ b.filter (fun kv2 => !(a.any (fun kv => kv.1 == kv2.1)))

/-- A JavaScript `Error` as used by `registerException`: its `message`
string and the optional structured `data` attached to it
(`(<any>error).data`). `message := none` models an absent message. -/
structure JSError where
  message : Option String
  data : Option Props
deriving DecidableEq, Repr

/-- The caller-supplied identifiers (`ITelemetryArgs['extraInfo']`); field
names follow their uses in `createClient`. An `ExtraInfo` with both fields
`none` is the empty object `{}`. -/
structure ExtraInfo where
  uniqId : Option String
  sessId : Option String
deriving DecidableEq, Repr

/-- The empty object `{}` used as the final fallback in `updateOpts`. -/
def emptyExtraInfo : ExtraInfo := { uniqId := none, sessId := none }

/-- The argument of `updateOpts` / the constructor (`ITelemetryArgs`):
`enableTelemetry` read by truthiness, `extraInfo` possibly absent. -/
structure ITelemetryArgs where
  enableTelemetry : Bool
  extraInfo : Option ExtraInfo
deriving DecidableEq, Repr

/-- An argument of a local log call (the `debug`-style logger takes a
format string followed by arbitrary values). -/
inductive LogArg where
  | s : String → LogArg
  | n : Int → LogArg
  | err : JSError → LogArg
  | props : Props → LogArg
deriving DecidableEq, Repr

/-- One observable call to a collaborator, in program order: a local log
write (`log.extend(ns)(fmt, args...)`), the mutation of the Sentry client
option `enabled`, `Sentry.setTags` (its values are ambient process
constants: product, platform, arch, version, ...), `Sentry.setUser`,
`scope.setExtras`, and the three backend captures. -/
inductive Effect where
  | log : String → String → List LogArg → Effect
  | clientSetEnabled : Bool → Effect
  | setTags : Effect
  | setUser : Option String → Option String → Option String → Effect
  | setExtras : JSError → Props → Effect
  | captureException : JSError → Effect
  | captureMessage : String → Option String → Effect
  | captureEvent : String → String → Option Props → Int → Effect
deriving DecidableEq, Repr

/-- The process-wide state: the two `Telemetry` statics, the `lastIndex`
of the `g`-flagged `IGNORE_ERRORS_REGEX`, and the Sentry client's
`enabled` option (toggled through `getOptions().enabled`). -/
structure TelemetryState where
  enabled : Bool
  extraInfo : Option ExtraInfo
  regexLastIndex : Nat
  clientEnabled : Bool
deriving DecidableEq, Repr

/-- JavaScript `String.prototype.toLowerCase` (ASCII fragment). -/
def jsToLower (s : String) : String :=
  String.mk (s.toList.map Char.toLower)

/-- JavaScript `String.prototype.substr(start, len)`. -/
def jsSubstr (s : String) (start len : Nat) : String :=
  String.mk ((s.toList.drop start).take len)

/-- The private helper `prefixed(key)`, i.e. `` `${product}:${key}` ``. -/
def prefixed (product key : String) : String :=
  product ++ ":" ++ key

/-! ### The deny-list regex

`IGNORE_ERRORS_REGEX` is the alternation of the substrings below, compiled
with the `g` flag. All alternatives are literals except `ora-[0-9]+`.
Because of the `g` flag, `RegExp.prototype.test` searches from the regex
object's `lastIndex`: on a match it returns `true` and sets `lastIndex`
just past the match; on a failure (including `lastIndex` beyond the end of
the string) it resets `lastIndex` to `0` and returns `false`. -/

/-- One alternative of `IGNORE_ERRORS_REGEX`: a literal substring, or the
pattern `ora-[0-9]+`. -/
inductive Pat where
  | lit : List Char → Pat
  | oraNum : Pat
deriving DecidableEq, Repr

/-- Does the first list occur at the head of the second? -/
def litMatch : List Char → List Char → Bool
  | [], _ => true
  | _ :: _, [] => false
  | p :: ps, c :: cs => p == c && litMatch ps cs

/-- Length of the run of decimal digits at the head of the list. -/
def digitRun : List Char → Nat
  | [] => 0
  | c :: cs => if c.isDigit then digitRun cs + 1 else 0

/-- Match one alternative at the head of `s`, returning the match length
(`[0-9]+` is greedy). -/
def patMatchLen : Pat → List Char → Option Nat
  | .lit p, s => if litMatch p s then some p.length else none
  | .oraNum, s =>
    if litMatch "ora-".toList s then
      let d := digitRun (s.drop 4)
      if 0 < d then some (4 + d) else none
    else none

/-- First alternative (in source order) matching at the head of `s`. -/
def firstPatMatch : List Pat → List Char → Option Nat
  | [], _ => none
  | p :: ps, s =>
    match patMatchLen p s with
    | some L => some L
    | none => firstPatMatch ps s

/-- The alternatives of `IGNORE_ERRORS_REGEX`, in source order (including
the duplicated `enotfound`). -/
def IGNORE_ERRORS_PATTERNS : List Pat :=
  [ .lit "aggregate function".toList,
    .lit "already exists".toList,
    .lit "authentication failed".toList,
    .lit "cannot drop".toList,
    .lit "cross-database references".toList,
    .lit "does not exist".toList,
    .lit "econnrefused".toList,
    .lit "econnreset".toList,
    .lit "enotfound".toList,
    .lit "enotfound".toList,
    .lit "er_access_denied_error".toList,
    .lit "er_bad_db_error".toList,
    .lit "er_bad_field_error".toList,
    .lit "er_cannot_load_from_table_v2".toList,
    .lit "er_dup_fieldname".toList,
    .lit "er_no_referenced_row_2".toList,
    .lit "er_no_such_table".toList,
    .lit "er_not_supported_auth_mode".toList,
    .lit "er_parse_error".toList,
    .lit "etimedout".toList,
    .lit "failed to connect".toList,
    .lit "is ambiguous".toList,
    .lit "key constraint".toList,
    .lit "login failed".toList,
    .lit "no such table".toList,
    .oraNum,
    .lit "sqlite_cantopen".toList,
    .lit "syntax error".toList,
    .lit "unknown_code_please_report".toList,
    .lit "violates".toList ]

/-- Leftmost match of the alternation in the given suffix: tries each
position in turn, and at each position the alternatives in source order.
Returns `(absolute start, length)`; `pos` is the absolute position of the
head of `s`. -/
def regexScan (pats : List Pat) (s : List Char) (pos : Nat) : Option (Nat × Nat) :=
  match firstPatMatch pats s with
  | some L => some (pos, L)
  | none =>
    match s with
    | [] => none
    | _ :: rest => regexScan pats rest (pos + 1)

/-- `IGNORE_ERRORS_REGEX.test(s)` for a `g`-flagged regex: search from
`lastIndex`; on success return `true` with the new `lastIndex` (just past
the match), on failure return `false` with `lastIndex` reset to `0`. -/
def regexTest (lastIndex : Nat) (s : List Char) : Bool × Nat :=
  if s.length < lastIndex then (false, 0)
  else
    match regexScan IGNORE_ERRORS_PATTERNS (s.drop lastIndex) lastIndex with
    | some r => (true, r.1 + r.2)
    | none => (false, 0)

/-! ### The external SDK's `Severity` enum

`@sentry/types` declares `Severity` as a TypeScript *string* enum
(`Fatal = 'fatal'`, `Error = 'error'`, `Warning = 'warning'`,
`Log = 'log'`, `Info = 'info'`, `Debug = 'debug'`,
`Critical = 'critical'`). A string enum compiles to an object whose keys
are the member *names* only — unlike numeric enums, string enums generate
no reverse (value → name) mapping. `sentrySeverityEnum` is that compiled
object, and `sentrySeverityIndex k` is the JavaScript member access
`Sentry.Severity[k]` (`none` models `undefined`). -/

/-- The compiled enum object of `Sentry.Severity` (member name ↦ value). -/
def sentrySeverityEnum : List (String × String) :=
  [ ("Fatal", "fatal"),
    ("Error", "error"),
    ("Warning", "warning"),
    ("Log", "log"),
    ("Info", "info"),
    ("Debug", "debug"),
    ("Critical", "critical") ]

/-- `Sentry.Severity[k]`: property lookup on the compiled enum object. -/
def sentrySeverityIndex (k : String) : Option String :=
  (sentrySeverityEnum.find? (fun kv => kv.1 == k)).map (fun kv => kv.2)

/-- The severity argument of `registerMessage`
(`'info' | 'warn' | 'debug' | 'error' | 'critical' | 'fatal'`). -/
inductive Severity where
  | info
  | warn
  | debug
  | error
  | critical
  | fatal
deriving DecidableEq, Repr, Fintype

/-- The severity as the string the caller passed. -/
def severityStr : Severity → String
  | .info => "info"
  | .warn => "warn"
  | .debug => "debug"
  | .error => "error"
  | .critical => "critical"
  | .fatal => "fatal"

/-- The value of the `Sentry.Severity` member assigned to `sev` by the
`switch` in `registerMessage` (`Severity.Debug = "debug"`,
`Severity.Info = "info"`, `Severity.Warning = "warning"`,
`Severity.Error = "error"`; the `default` branch assigns `Info` but is
unreachable for the six declared inputs). -/
def sevValue : Severity → String
  | .debug => "debug"
  | .info => "info"
  | .warn => "warning"
  | .error => "error"
  | .fatal => "error"
  | .critical => "error"

/-! ### The operations -/

/-- The effects of the private `createClient` arrow: turn the client's
`enabled` option on, `Sentry.setTags(...)` (ambient constants), and — if
`Telemetry.extraInfo` is truthy — `Sentry.setUser({ id: uniqId,
deviceId: uniqId, sessionId: sessId })`. -/
def createClientEffects (st : TelemetryState) : List Effect :=
  [Effect.clientSetEnabled true, Effect.setTags]
  ++ (match st.extraInfo with
      | some e => [Effect.setUser e.uniqId e.uniqId e.sessId]
      | none => [])

/-- `enable()`: no-op if already enabled; otherwise set the flag, run
`createClient()` and log. -/
def enable (st : TelemetryState) : TelemetryState × List Effect :=
  if st.enabled then (st, [])
  else
    let st1 : TelemetryState := { st with enabled := true, clientEnabled := true }
    (st1, createClientEffects st1 ++ [Effect.log "debug" "Telemetry enabled!" []])

/-- `disable()`: no-op if already disabled; otherwise clear the flag, turn
the client's `enabled` option off and log. -/
def disable (st : TelemetryState) : TelemetryState × List Effect :=
  if !st.enabled then (st, [])
  else
    ({ st with enabled := false, clientEnabled := false },
     [Effect.clientSetEnabled false, Effect.log "debug" "Telemetry disabled!" []])

/-- `updateOpts(opts)` (also the constructor body):
`Telemetry.extraInfo = opts.extraInfo || Telemetry.extraInfo || {}`
(every `ExtraInfo` object is truthy), then `enable()`/`disable()` by the
truthiness of `opts.enableTelemetry`. -/
def updateOpts (opts : ITelemetryArgs) (st : TelemetryState) : TelemetryState × List Effect :=
  let st1 : TelemetryState :=
    { st with extraInfo := some (opts.extraInfo.getD (st.extraInfo.getD emptyExtraInfo)) }
  if opts.enableTelemetry then enable st1 else disable st1

/-- The state before the module-level constructor call: both statics
uninitialized (`enabled` reads falsy, `extraInfo` is `undefined`), the
regex fresh, and the client initialized with `enabled: false` by
`Sentry.init`. -/
def preLoadState : TelemetryState :=
  { enabled := false, extraInfo := none, regexLastIndex := 0, clientEnabled := false }

/-- The state after module load, i.e. after
`new Telemetry({ enableTelemetry: false })` at the bottom of the file. -/
def moduleLoadState : TelemetryState :=
  (updateOpts { enableTelemetry := false, extraInfo := none } preLoadState).1

/-- `registerException(error, data = {})`: no-op when disabled or when
`error` is absent; otherwise lower-case the message, run the (stateful)
deny-list test — dropping the call on a match — and else log, attach
`{ exception, properties }` as scope extras and capture, where
`properties = { ...(error.data || {}), ...data }`. -/
def registerException (product : String) (error : Option JSError) (data : Props)
    (st : TelemetryState) : TelemetryState × List Effect :=
  if !st.enabled then (st, [])
  else
    match error with
    | none => (st, [])
    | some err =>
      let errStr := (jsToLower (err.message.getD "")).toList
      let t := regexTest st.regexLastIndex errStr
      let st1 : TelemetryState := { st with regexLastIndex := t.2 }
      if t.1 then (st1, [])
      else
        let properties := propsMerge (err.data.getD []) data
        (st1,
         [Effect.log "error" "Exception:%O\n\tData: %j" [LogArg.err err, LogArg.props properties],
          Effect.setExtras err properties,
          Effect.captureException err])

/-- `registerMessage(severity, message, value = 'Dismissed')`: no-op when
disabled; otherwise log under the namespace
`severity.substr(0, 5).toLowerCase()`, pick `sev` by the `switch`, and
call `Sentry.captureMessage(prefixed(message), Sentry.Severity[sev])`. -/
def registerMessage (product : String) (severity : Severity) (message : String)
    (value : String) (st : TelemetryState) : TelemetryState × List Effect :=
  if !st.enabled then (st, [])
  else
    let ns := jsToLower (jsSubstr (severityStr severity) 0 5)
    let sev := sevValue severity
    (st,
     [Effect.log ns "Message: %s, value: %s" [LogArg.s message, LogArg.s value],
      Effect.captureMessage (prefixed product message) (sentrySeverityIndex sev)])

/-- `registerEvent(name, properties?)`: no-op when disabled; otherwise log
(`properties || ''`) and capture `{ event_id: prefixed(name),
message: name, extra: properties, timestamp: +new Date() }`. -/
def registerEvent (product : String) (name : String) (properties : Option Props)
    (now : Int) (st : TelemetryState) : TelemetryState × List Effect :=
  if !st.enabled then (st, [])
  else
    (st,
     [Effect.log "debug" "Event: %s\n%j"
        [LogArg.s name,
         match properties with
         | some p => LogArg.props p
         | none => LogArg.s ""],
      Effect.captureEvent (prefixed product name) name properties now])

/-- `registerTime(timeKey, timer)`: no-op when disabled; otherwise read
`elapsed = timer.elapsed()`, log, and delegate to
`registerEvent(prefixed('time:' + timeKey), { value: elapsed })`. -/
def registerTime (product : String) (timeKey : String) (elapsed : Int)
    (now : Int) (st : TelemetryState) : TelemetryState × List Effect :=
  if !st.enabled then (st, [])
  else
    let r := registerEvent product (prefixed product ("time:" ++ timeKey))
      (some [("value", JSVal.num elapsed)]) now st
    (r.1, Effect.log "debug" "Time: %s %d ms" [LogArg.s timeKey, LogArg.n elapsed] :: r.2)

/-- The `beforeSend` hook installed by `Sentry.init`: drop every event
while `Telemetry.enabled` is falsy. -/
def beforeSend (st : TelemetryState) (event : α) : Option α :=
  if !st.enabled then none else some event

/-- The backend capture calls among a list of effects. -/
def captures (effs : List Effect) : List Effect :=
  effs.filter (fun e =>
    match e with
    | .captureException _ => true
    | .captureMessage _ _ => true
    | .captureEvent _ _ _ _ => true
    | _ => false)

/-- A reachable enabled state: module load followed by
`configure({ enableTelemetry: true })`. -/
def enabledState : TelemetryState :=
  (updateOpts { enableTelemetry := true, extraInfo := none } moduleLoadState).1

/-- The configure options `{ enableTelemetry: false, extraInfo:
{ uniqId: "a", sessId: "b" } }` used by the merge-semantics scenario. -/
def optsAB : ITelemetryArgs :=
  { enableTelemetry := false,
    extraInfo := some { uniqId := some "a", sessId := some "b" } }

/-- Number of `Sentry.setTags` calls among a list of effects. -/
def countTags (effs : List Effect) : Nat :=
  (effs.filter (fun e =>
    match e with
    | .setTags => true
    | _ => false)).length

/-- Number of client `enabled`-option toggles among a list of effects. -/
def countClientToggles (effs : List Effect) : Nat :=
  (effs.filter (fun e =>
    match e with
    | .clientSetEnabled _ => true
    | _ => false)).length

/-! ### Helper lemmas -/

theorem registerException_disabled (product : String) (err : Option JSError) (data : Props)
    (st : TelemetryState) (h : st.enabled = false) :
    registerException product err data st = (st, []) := by
  simp [registerException, h]

theorem registerMessage_disabled (product : String) (s : Severity) (msg v : String)
    (st : TelemetryState) (h : st.enabled = false) :
    registerMessage product s msg v st = (st, []) := by
  simp [registerMessage, h]

theorem registerEvent_disabled (product nm : String) (props : Option Props) (now : Int)
    (st : TelemetryState) (h : st.enabled = false) :
    registerEvent product nm props now st = (st, []) := by
  simp [registerEvent, h]

theorem registerTime_disabled (product k : String) (n now : Int)
    (st : TelemetryState) (h : st.enabled = false) :
    registerTime product k n now st = (st, []) := by
  simp [registerTime, h]

theorem enable_fst_extraInfo (st : TelemetryState) :
    ((enable st).1).extraInfo = st.extraInfo := by
  unfold enable
  split
  · rfl
  · rfl

theorem disable_fst_extraInfo (st : TelemetryState) :
    ((disable st).1).extraInfo = st.extraInfo := by
  unfold disable
  split
  · rfl
  · rfl

theorem updateOpts_extraInfo (opts : ITelemetryArgs) (st : TelemetryState) :
    ((updateOpts opts st).1).extraInfo =
      some (opts.extraInfo.getD (st.extraInfo.getD emptyExtraInfo)) := by
  unfold updateOpts
  split
  · rw [enable_fst_extraInfo]
  · rw [disable_fst_extraInfo]

theorem registerException_fst_extraInfo (product : String) (err : Option JSError) (data : Props)
    (st : TelemetryState) :
    ((registerException product err data st).1).extraInfo = st.extraInfo := by
  unfold registerException
  split
  · rfl
  · split
    · rfl
    · dsimp only
      split
      · rfl
      · rfl

/-! ### Claim theorems -/

/-- C1: when the `enabled` flag is false, every report operation
(`registerException`, `registerMessage`, `registerEvent`, `registerTime`)
is a complete no-op for every argument: no backend capture, no local log
write, and the state (in particular `enabled` and `extraInfo`) is
unchanged. -/
theorem gating_disabled_noop (product : String) (st : TelemetryState)
    (h : st.enabled = false) :
    (∀ err data, registerException product err data st = (st, [])) ∧
    (∀ s msg v, registerMessage product s msg v st = (st, [])) ∧
    (∀ nm props now, registerEvent product nm props now st = (st, [])) ∧
    (∀ k n now, registerTime product k n now st = (st, [])) :=
  ⟨fun err data => registerException_disabled product err data st h,
   fun s msg v => registerMessage_disabled product s msg v st h,
   fun nm props now => registerEvent_disabled product nm props now st h,
   fun k n now => registerTime_disabled product k n now st h⟩

/-- Witness for C1 at the concrete disabled state reached by module load. -/
theorem gating_disabled_noop_witness :
    moduleLoadState.enabled = false ∧
    registerException "ext" (some { message := some "boom", data := none }) []
      moduleLoadState = (moduleLoadState, []) ∧
    registerMessage "ext" Severity.info "m" "v" moduleLoadState = (moduleLoadState, []) ∧
    registerEvent "ext" "save" (some [("rows", JSVal.num 3)]) 0 moduleLoadState
      = (moduleLoadState, []) ∧
    registerTime "ext" "query" 42 0 moduleLoadState = (moduleLoadState, []) :=
  ⟨rfl,
   (gating_disabled_noop "ext" moduleLoadState rfl).1
     (some { message := some "boom", data := none }) [],
   (gating_disabled_noop "ext" moduleLoadState rfl).2.1 Severity.info "m" "v",
   (gating_disabled_noop "ext" moduleLoadState rfl).2.2.1 "save"
     (some [("rows", JSVal.num 3)]) 0,
   (gating_disabled_noop "ext" moduleLoadState rfl).2.2.2 "query" 42 0⟩

/-- C2 (code bug): the deny-list filter is not stateless. A message
containing the deny-listed substring "syntax error" does match the regex
from a fresh `lastIndex`, and a first `registerException` call is indeed
dropped — but because `IGNORE_ERRORS_REGEX` carries the `g` flag,
`test` leaves `lastIndex` past the first match, so an immediately
following `registerException` whose message "syntax error" also contains
the substring is NOT dropped: its `captureException` reaches the
backend. -/
theorem denyList_lastIndex_bug :
    (regexTest 0 (jsToLower "syntax error").toList).1 = true ∧
    captures (registerException "ext"
      (some { message := some "boom syntax error", data := none }) [] enabledState).2 = [] ∧
    captures (registerException "ext"
      (some { message := some "syntax error", data := none }) []
      (registerException "ext"
        (some { message := some "boom syntax error", data := none }) [] enabledState).1).2
      = [Effect.captureException { message := some "syntax error", data := none }] := by
  decide

/-- C3 (code bug): for every severity input the `switch` picks the
intended `Sentry.Severity` member, but the call site passes
`Sentry.Severity[sev]` — an index into the string-enum object by its
*value* instead of its name — so the level argument the backend's
`captureMessage` receives is `undefined` (`none`) for all six inputs,
never the mapped level. -/
theorem registerMessage_severity_lookup_undefined :
    ∀ s : Severity,
      sentrySeverityIndex (sevValue s) = none ∧
      captures (registerMessage "ext" s "m" "Dismissed" enabledState).2
        = [Effect.captureMessage (prefixed "ext" "m") none] := by
  decide

/-- Counterexample to C4: while enabled, `registerTime("query", timer)`
with `elapsed = 42` does not produce the same backend event as
`registerEvent("time:" + "query", {value: 42})` — `registerTime` hands
`registerEvent` an already-prefixed name, which `registerEvent` prefixes
again (`event_id` "ext:ext:time:query" versus "ext:time:query"). -/
theorem registerTime_not_equiv_unprefixed :
    captures (registerTime "ext" "query" 42 0 enabledState).2 ≠
      captures (registerEvent "ext" ("time:" ++ "query")
        (some [("value", JSVal.num 42)]) 0 enabledState).2 := by
  decide

/-- C4 as amended: while enabled, `registerTime(timeKey, timer)` with
`elapsed = n` produces exactly the backend event of
`registerEvent(prefixed("time:" + timeKey), {value: n})` (the
product-prefixed key, which `registerEvent` prefixes once more), with the
same resulting state. -/
theorem registerTime_delegates_prefixed (product timeKey : String) (n now : Int)
    (st : TelemetryState) (h : st.enabled = true) :
    captures (registerTime product timeKey n now st).2 =
      captures (registerEvent product (prefixed product ("time:" ++ timeKey))
        (some [("value", JSVal.num n)]) now st).2 ∧
    (registerTime product timeKey n now st).1 =
      (registerEvent product (prefixed product ("time:" ++ timeKey))
        (some [("value", JSVal.num n)]) now st).1 := by
  constructor
  · simp [registerTime, registerEvent, captures, h]
  · simp [registerTime, registerEvent, h]

/-- Witness for the amended C4 at `timeKey = "query"`, `elapsed = 42`. -/
theorem registerTime_delegates_prefixed_witness :
    captures (registerTime "ext" "query" 42 0 enabledState).2 =
      captures (registerEvent "ext" (prefixed "ext" ("time:" ++ "query"))
        (some [("value", JSVal.num 42)]) 0 enabledState).2 ∧
    (registerTime "ext" "query" 42 0 enabledState).1 =
      (registerEvent "ext" (prefixed "ext" ("time:" ++ "query"))
        (some [("value", JSVal.num 42)]) 0 enabledState).1 :=
  registerTime_delegates_prefixed "ext" "query" 42 0 enabledState rfl

/-- Counterexample to C5: while enabled, `registerEvent("save", {rows: 3})`
produces one backend capture whose `event_id` is the prefixed name but
whose `message` is the un-prefixed "save", which differs from the
product-prefixed form the claim requires for both fields. -/
theorem registerEvent_message_not_prefixed :
    captures (registerEvent "ext" "save" (some [("rows", JSVal.num 3)]) 0 enabledState).2 =
      [Effect.captureEvent (prefixed "ext" "save") "save"
        (some [("rows", JSVal.num 3)]) 0] ∧
    "save" ≠ prefixed "ext" "save" := by
  decide

/-- C5 as amended: while enabled, `registerEvent(name, properties)`
produces exactly one backend capture, whose event identifier equals the
product-prefixed form of `name`, whose `message` equals `name` itself
(un-prefixed), and whose extra data equals the properties bag; the state
is unchanged. -/
theorem registerEvent_capture_shape (product nm : String) (props : Option Props) (now : Int)
    (st : TelemetryState) (h : st.enabled = true) :
    captures (registerEvent product nm props now st).2 =
      [Effect.captureEvent (prefixed product nm) nm props now] ∧
    (registerEvent product nm props now st).1 = st := by
  constructor
  · simp [registerEvent, captures, h]
  · simp [registerEvent, h]

/-- Witness for the amended C5 at `name = "save"`, properties `{rows: 3}`. -/
theorem registerEvent_capture_shape_witness :
    captures (registerEvent "ext" "save" (some [("rows", JSVal.num 3)]) 0 enabledState).2 =
      [Effect.captureEvent (prefixed "ext" "save") "save"
        (some [("rows", JSVal.num 3)]) 0] ∧
    (registerEvent "ext" "save" (some [("rows", JSVal.num 3)]) 0 enabledState).1
      = enabledState :=
  registerEvent_capture_shape "ext" "save" (some [("rows", JSVal.num 3)]) 0 enabledState rfl

/-- C6: `updateOpts` (configure) replaces the stored `extraInfo` exactly
when the new options carry one, keeping the previous value (or the empty
object) otherwise; in particular `configure({enableTelemetry: true})`
after `configure({enableTelemetry: false, extraInfo: {uniqId: "a",
sessId: "b"}})` keeps the identifiers "a"/"b" and flips `enabled` to
true. -/
theorem configure_merge_semantics :
    (∀ opts st, ((updateOpts opts st).1).extraInfo =
      some (opts.extraInfo.getD (st.extraInfo.getD emptyExtraInfo))) ∧
    ((updateOpts { enableTelemetry := true, extraInfo := none }
        (updateOpts optsAB moduleLoadState).1).1).extraInfo
      = some { uniqId := some "a", sessId := some "b" } ∧
    ((updateOpts { enableTelemetry := true, extraInfo := none }
        (updateOpts optsAB moduleLoadState).1).1).enabled = true :=
  ⟨updateOpts_extraInfo, by decide, by decide⟩

/-- C7: `enable()` and `disable()` are idempotent — from any state, the
second of two consecutive calls is a complete no-op (same state, no
effects), and a single `enable()` performs the tag-setting and the
client-activation side effect at most once (likewise at most one client
toggle per `disable()`). -/
theorem enable_disable_idempotent (st : TelemetryState) :
    enable (enable st).1 = ((enable st).1, []) ∧
    disable (disable st).1 = ((disable st).1, []) ∧
    countTags (enable st).2 ≤ 1 ∧
    countClientToggles (enable st).2 ≤ 1 ∧
    countTags (disable st).2 = 0 ∧
    countClientToggles (disable st).2 ≤ 1 := by
  obtain ⟨e, x, r, c⟩ := st
  cases e <;> cases x <;>
    simp [enable, disable, createClientEffects, countTags, countClientToggles]

/-- C8: `registerMessage`, while enabled, forwards a backend
`captureMessage` that does not depend on the `value` argument — two calls
differing only in `value` produce identical backend captures (same
prefixed message text, same level argument) — while `value` does appear
among the arguments of the local log line of the call. -/
theorem registerMessage_value_local_only (product : String) (s : Severity)
    (msg v1 v2 : String) (st : TelemetryState) (h : st.enabled = true) :
    captures (registerMessage product s msg v1 st).2 =
      captures (registerMessage product s msg v2 st).2 ∧
    Effect.log (jsToLower (jsSubstr (severityStr s) 0 5)) "Message: %s, value: %s"
        [LogArg.s msg, LogArg.s v1] ∈ (registerMessage product s msg v1 st).2 := by
  constructor
  · simp [registerMessage, captures, h]
  · simp [registerMessage, h]

/-- Witness for C8 at `severity = info`, `message = "m"`, values "A"/"B". -/
theorem registerMessage_value_local_only_witness :
    captures (registerMessage "ext" Severity.info "m" "A" enabledState).2 =
      captures (registerMessage "ext" Severity.info "m" "B" enabledState).2 ∧
    Effect.log (jsToLower (jsSubstr (severityStr Severity.info) 0 5))
        "Message: %s, value: %s" [LogArg.s "m", LogArg.s "A"]
      ∈ (registerMessage "ext" Severity.info "m" "A" enabledState).2 :=
  registerMessage_value_local_only "ext" Severity.info "m" "A" "B" enabledState rfl

/-- C9: immediately after module load (the singleton is constructed with
`{enableTelemetry: false}`), the `enabled` flag reads false, and every
report operation invoked in that state, for every argument, is a complete
no-op with zero backend interactions. -/
theorem initial_disabled_noop :
    moduleLoadState.enabled = false ∧
    (∀ product err data,
      registerException product err data moduleLoadState = (moduleLoadState, [])) ∧
    (∀ product s msg v,
      registerMessage product s msg v moduleLoadState = (moduleLoadState, [])) ∧
    (∀ product nm props now,
      registerEvent product nm props now moduleLoadState = (moduleLoadState, [])) ∧
    (∀ product k n now,
      registerTime product k n now moduleLoadState = (moduleLoadState, [])) :=
  ⟨rfl,
   fun product err data => registerException_disabled product err data moduleLoadState rfl,
   fun product s msg v => registerMessage_disabled product s msg v moduleLoadState rfl,
   fun product nm props now => registerEvent_disabled product nm props now moduleLoadState rfl,
   fun product k n now => registerTime_disabled product k n now moduleLoadState rfl⟩

/-- C10: from module load on, the stored `extraInfo` is always a defined
object (`updateOpts` always writes one, and no other operation changes
it), so the `if (Telemetry.extraInfo)` guard in `createClient` always
passes: every transition from disabled to enabled emits a `setUser`
effect — with absent identifier fields when the caller never supplied
any, as after the bare module load. -/
theorem extraInfo_defined_setUser :
    moduleLoadState.extraInfo.isSome = true ∧
    (∀ opts st, (((updateOpts opts st).1).extraInfo).isSome = true) ∧
    (∀ st, ((enable st).1).extraInfo = st.extraInfo) ∧
    (∀ st, ((disable st).1).extraInfo = st.extraInfo) ∧
    (∀ product err data st,
      ((registerException product err data st).1).extraInfo = st.extraInfo) ∧
    (∀ product s msg v st,
      ((registerMessage product s msg v st).1).extraInfo = st.extraInfo) ∧
    (∀ product nm props now st,
      ((registerEvent product nm props now st).1).extraInfo = st.extraInfo) ∧
    (∀ product k n now st,
      ((registerTime product k n now st).1).extraInfo = st.extraInfo) ∧
    (∀ st e, st.enabled = false → st.extraInfo = some e →
      Effect.setUser e.uniqId e.uniqId e.sessId ∈ (enable st).2) ∧
    Effect.setUser none none none ∈ (enable moduleLoadState).2 := by
  refine ⟨rfl, ?_, enable_fst_extraInfo, disable_fst_extraInfo,
    registerException_fst_extraInfo, ?_, ?_, ?_, ?_, ?_⟩
  · intro opts st
    rw [updateOpts_extraInfo]
    rfl
  · intro product s msg v st
    unfold registerMessage
    split
    · rfl
    · rfl
  · intro product nm props now st
    unfold registerEvent
    split
    · rfl
    · rfl
  · intro product k n now st
    unfold registerTime
    split
    · rfl
    · dsimp only
      unfold registerEvent
      split
      · rfl
      · rfl
  · intro st e h1 h2
    simp [enable, createClientEffects, h1, h2]
  · decide

/-- Witness for C10: enabling from a configured disabled state emits the
caller's identifiers as the backend user identity. -/
theorem extraInfo_defined_setUser_witness :
    Effect.setUser (some "a") (some "a") (some "b") ∈
      (enable ((updateOpts optsAB moduleLoadState).1)).2 :=
  extraInfo_defined_setUser.2.2.2.2.2.2.2.2.1
    ((updateOpts optsAB moduleLoadState).1)
    { uniqId := some "a", sessId := some "b" } (by decide) (by decide)

end Telemetry
